import Mathlib

/-!
Verification of the fizzy WASI shim (src/tools/wasi/wasi.cpp).

The file embeds the host-call handlers, the host-call registry and the
module runner `run` from `fizzy::wasi`.  External collaborators (the
parser, the interpreter and the uvwasi syscall-emulation library) are
not part of the source excerpt; they are modelled from the spec and
each such definition is marked `Modelled from the spec:` in its doc
comment.
-/

namespace FizzyWasi

/-- Wasm value types (fizzy `ValType`). Only `i32` is used by the shim. -/
inductive ValType where
  | i32
  | i64
  | f32
  | f64
deriving DecidableEq, Repr

/-- Function type: parameter and result type lists (fizzy `FuncType`).
`FuncType{}` in the source is the empty/empty type. -/
structure FuncType where
  inputs : List ValType
  outputs : List ValType
deriving DecidableEq, Repr

/-- The value of the C++ expression `FuncType{}`: no parameters, no results. -/
def emptyFuncType : FuncType := ⟨[], []⟩

/-- Outcome of an interpreter execution (fizzy `ExecutionResult`):
a trap, a normal return with no value, or a normal return with a value. -/
inductive ExecutionResult where
  | trap
  | void
  | value (v : Nat)
deriving DecidableEq, Repr

/-- The `trapped` field of the C++ `ExecutionResult`. -/
def ExecutionResult.trapped : ExecutionResult → Bool
  | .trap => true
  | _ => false

/-- The `has_value` field of the C++ `ExecutionResult`. -/
def ExecutionResult.has_value : ExecutionResult → Bool
  | .value _ => true
  | _ => false

/-- Outcome of one host-call dispatch.  Per the spec's design note,
`proc_exit` is modelled as a distinct `processExit` outcome variant
("terminate with code X") rather than as a handler that never returns. -/
inductive HostOutcome where
  | result (r : ExecutionResult)
  | processExit (code : Nat)
deriving DecidableEq, Repr

/-- Guest linear memory: a byte buffer. -/
abbrev Memory := List Nat

/-- Operations of the syscall-emulation collaborator, recorded as trace
events so that "invokes exactly one operation per call" is expressible. -/
inductive WasiOp where
  | opFdRead (fd iov_ptr iov_cnt nread_ptr : Nat)
  | opFdWrite (fd iov_ptr iov_cnt nwritten_ptr : Nat)
  | opFdPrestatGet (fd prestat_ptr : Nat)
  | opEnvironSizesGet (environc environ_buf_size : Nat)
  | opProcExit (code : Nat)
deriving DecidableEq, Repr

/-- Modelled from the spec: the syscall-emulation collaborator (`WASI` /
uvwasi, implemented in `wasi_uvwasi.cpp`, outside the excerpt).  Each
operation returns a numeric status and may rewrite guest memory;
`return_enosys` yields the collaborator's fixed "not supported" status;
`proc_exit` never returns and is therefore not a field here (it is the
`processExit` outcome). -/
structure WASIBehavior where
  enosysStatus : Nat
  fd_read : Memory → Nat → Nat → Nat → Nat → Nat × Memory
  fd_write : Memory → Nat → Nat → Nat → Nat → Nat × Memory
  fd_prestat_get : Memory → Nat → Nat → Nat × Memory
  environ_sizes_get : Memory → Nat → Nat → Nat × Memory

/-- Result of running one host-call handler: the trace of collaborator
operations it performed, its dispatch outcome, and the guest memory
afterwards. -/
structure HandlerResult where
  trace : List WasiOp
  outcome : HostOutcome
  memory : Memory
deriving Repr

/-- Reading argument slot `i` (the C++ `args[i]`). -/
def argN (args : List Nat) (i : Nat) : Nat := args.getD i 0

/-- The C++ conversion `as<uint32_t>()` on a value slot. -/
def asU32 (v : Nat) : Nat := v % 2 ^ 32

/-- Embeds `return_enosys` (wasi.cpp lines 21-24): returns the
collaborator's fixed "not supported" status, touches nothing else. -/
def return_enosys (w : WASIBehavior) (mem : Memory) (_args : List Nat) : HandlerResult :=
  ⟨[], HostOutcome.result (ExecutionResult.value w.enosysStatus), mem⟩

/-- Embeds `proc_exit` (wasi.cpp lines 26-31): calls the collaborator's
`proc_exit(args[0])`, which never returns (the source's `return Trap`
is dead code).  Modelled from the spec: the non-returning termination is
implemented in `wasi_uvwasi.cpp`, outside the excerpt, and appears here
as the `processExit` outcome carrying the exit code. -/
def proc_exit (_w : WASIBehavior) (mem : Memory) (args : List Nat) : HandlerResult :=
  let code := asU32 (argN args 0)
  ⟨[WasiOp.opProcExit code], HostOutcome.processExit code, mem⟩

/-- Embeds `fd_write` (wasi.cpp lines 33-43). -/
def fd_write (w : WASIBehavior) (mem : Memory) (args : List Nat) : HandlerResult :=
  let fd := asU32 (argN args 0)
  let iov_ptr := asU32 (argN args 1)
  let iov_cnt := asU32 (argN args 2)
  let nwritten_ptr := asU32 (argN args 3)
  let r := w.fd_write mem fd iov_ptr iov_cnt nwritten_ptr
  ⟨[WasiOp.opFdWrite fd iov_ptr iov_cnt nwritten_ptr],
    HostOutcome.result (ExecutionResult.value r.1), r.2⟩

/-- Embeds `fd_read` (wasi.cpp lines 45-55). -/
def fd_read (w : WASIBehavior) (mem : Memory) (args : List Nat) : HandlerResult :=
  let fd := asU32 (argN args 0)
  let iov_ptr := asU32 (argN args 1)
  let iov_cnt := asU32 (argN args 2)
  let nread_ptr := asU32 (argN args 3)
  let r := w.fd_read mem fd iov_ptr iov_cnt nread_ptr
  ⟨[WasiOp.opFdRead fd iov_ptr iov_cnt nread_ptr],
    HostOutcome.result (ExecutionResult.value r.1), r.2⟩

/-- Embeds `fd_prestat_get` (wasi.cpp lines 57-65). -/
def fd_prestat_get (w : WASIBehavior) (mem : Memory) (args : List Nat) : HandlerResult :=
  let fd := asU32 (argN args 0)
  let prestat_ptr := asU32 (argN args 1)
  let r := w.fd_prestat_get mem fd prestat_ptr
  ⟨[WasiOp.opFdPrestatGet fd prestat_ptr],
    HostOutcome.result (ExecutionResult.value r.1), r.2⟩

/-- Embeds `environ_sizes_get` (wasi.cpp lines 67-75). -/
def environ_sizes_get (w : WASIBehavior) (mem : Memory) (args : List Nat) : HandlerResult :=
  let environc := asU32 (argN args 0)
  let environ_buf_size := asU32 (argN args 1)
  let r := w.environ_sizes_get mem environc environ_buf_size
  ⟨[WasiOp.opEnvironSizesGet environc environ_buf_size],
    HostOutcome.result (ExecutionResult.value r.1), r.2⟩

/-- Tags naming the handler functions stored in the registry (the C++
function pointers). -/
inductive HandlerTag where
  | proc_exit
  | fd_read
  | fd_write
  | fd_prestat_get
  | environ_sizes_get
  | return_enosys
deriving DecidableEq, Repr

/-- Dispatch from a registry tag to the handler it names. -/
def handlerOf : HandlerTag → WASIBehavior → Memory → List Nat → HandlerResult
  | .proc_exit => proc_exit
  | .fd_read => fd_read
  | .fd_write => fd_write
  | .fd_prestat_get => fd_prestat_get
  | .environ_sizes_get => environ_sizes_get
  | .return_enosys => return_enosys

/-- Fizzy `ImportedFunction`: module namespace, name, parameter types,
optional result type, handler. -/
structure ImportedFunction where
  module_name : String
  name : String
  inputs : List ValType
  outputs : Option ValType
  function : HandlerTag
deriving DecidableEq, Repr

/-- The host-call registry `wasi_functions` (wasi.cpp lines 115-127),
all entries under the namespace `wasi_snapshot_preview1`. -/
def wasi_functions : List ImportedFunction :=
  [⟨"wasi_snapshot_preview1", "proc_exit", [ValType.i32], none, HandlerTag.proc_exit⟩,
   ⟨"wasi_snapshot_preview1", "fd_read", [ValType.i32, ValType.i32, ValType.i32, ValType.i32],
     some ValType.i32, HandlerTag.fd_read⟩,
   ⟨"wasi_snapshot_preview1", "fd_write", [ValType.i32, ValType.i32, ValType.i32, ValType.i32],
     some ValType.i32, HandlerTag.fd_write⟩,
   ⟨"wasi_snapshot_preview1", "fd_prestat_get", [ValType.i32, ValType.i32],
     some ValType.i32, HandlerTag.fd_prestat_get⟩,
   ⟨"wasi_snapshot_preview1", "fd_prestat_dir_name", [ValType.i32, ValType.i32, ValType.i32],
     some ValType.i32, HandlerTag.return_enosys⟩,
   ⟨"wasi_snapshot_preview1", "environ_sizes_get", [ValType.i32, ValType.i32],
     some ValType.i32, HandlerTag.environ_sizes_get⟩,
   ⟨"wasi_snapshot_preview1", "environ_get", [ValType.i32, ValType.i32],
     some ValType.i32, HandlerTag.return_enosys⟩]

/-- Kinds of module exports (fizzy `ExternalKind`). -/
inductive ExternalKind where
  | function
  | table
  | memory
  | globalVar
deriving DecidableEq, Repr

/-- One entry of a module's export table. -/
structure ModuleExport where
  name : String
  kind : ExternalKind
  index : Nat
deriving DecidableEq, Repr

/-- Modelled from the spec: the typed module description produced by the
external parser (`parse(bytes) → module description`, spec section 6); the
parser itself is outside the excerpt.  It carries the export table and
the per-function type lookup `get_function_type`. -/
structure Module where
  exports : List ModuleExport
  getFunctionType : Nat → FuncType

/-- Modelled from the spec: `find-exported-function(instance, name) →
optional index` (spec section 6); implemented outside the excerpt.  Looks up
the first function export with the given name. -/
def find_exported_function_index (m : Module) (name : String) : Option Nat :=
  (m.exports.find? fun e => e.kind == ExternalKind.function && e.name == name).map
    fun e => e.index

/-- Modelled from the spec: `find-exported-memory(instance, name) →
optional handle` (spec section 6); implemented outside the excerpt.  Looks up
the first memory export with the given name. -/
def find_exported_memory (m : Module) (name : String) : Option Nat :=
  (m.exports.find? fun e => e.kind == ExternalKind.memory && e.name == name).map
    fun e => e.index

/-- Modelled from the spec: the behaviour of the external collaborators on
one given binary and argument vector, as `run` consumes them (spec
section 6): the uvwasi `init` status, the parse result (malformed binary →
error), import resolution failure against `wasi_functions`, instantiation
failure (memory limit), and the interpreter's `execute` on the
instantiated module.  Per the spec's state machine, instantiation binds
memory and imports and runs no guest code. -/
structure RunEnv where
  initStatus : Nat
  parseResult : Except String Module
  resolveError : Option String
  instantiateError : Option String
  execute : Module → Nat → ExecutionResult

/-- Observable outcome of one `run`: the boolean result, the diagnostics
written to the error stream, how many times the interpreter's `execute`
was invoked on the entry function, and the final execution result when
execution was reached. -/
structure RunTrace where
  success : Bool
  diagnostics : List String
  executeCalls : Nat
  finalResult : Option ExecutionResult
deriving DecidableEq, Repr

/-- Diagnostic printed when `wasi_impl->init` fails (wasi.cpp line 135). -/
def initFailMsg : String := "Failed to initialise UVWASI: \n"

/-- Diagnostic for a missing `_start` export (wasi.cpp line 150). -/
def noStartMsg : String := "File is not WASI compatible (_start not found)\n"

/-- Diagnostic for a `_start` with a wrong signature (wasi.cpp line 158). -/
def badSignatureMsg : String := "File is not WASI compatible (_start has invalid signature)\n"

/-- Diagnostic for a missing `memory` export (wasi.cpp line 164). -/
def noMemoryMsg : String := "File is not WASI compatible (no memory exported)\n"

/-- Diagnostic for a trapped execution (wasi.cpp line 171). -/
def trapMsg : String := "Execution aborted with WebAssembly trap\n"

/-- Embeds `run` (wasi.cpp lines 113-177): init the collaborator, parse,
resolve imports, instantiate, check the `_start` export, its signature
and the `memory` export, then execute the entry function once.
Modelled from the spec: parse, resolution and instantiation failures are
raised as exceptions in the source and turned into an error-stream
diagnostic and a failure result by the invoking process (outside the
excerpt); here they reject directly with their diagnostic. -/
def run (env : RunEnv) : RunTrace :=
  if env.initStatus ≠ 0 then
    ⟨false, [initFailMsg], 0, none⟩
  else
    match env.parseResult with
    | Except.error e => ⟨false, [e], 0, none⟩
    | Except.ok m =>
      match env.resolveError with
      | some e => ⟨false, [e], 0, none⟩
      | none =>
        match env.instantiateError with
        | some e => ⟨false, [e], 0, none⟩
        | none =>
          match find_exported_function_index m "_start" with
          | none => ⟨false, [noStartMsg], 0, none⟩
          | some start_function =>
            if m.getFunctionType start_function ≠ emptyFuncType then
              ⟨false, [badSignatureMsg], 0, none⟩
            else if find_exported_memory m "memory" = none then
              ⟨false, [noMemoryMsg], 0, none⟩
            else
              let result := env.execute m start_function
              if result.trapped then
                ⟨false, [trapMsg], 1, some result⟩
              else
                ⟨true, [], 1, some result⟩

/-- A structural-contract error on the input, as listed by the spec's
error taxonomy: malformed binary, import-resolution failure,
instantiation (memory-limit) failure, missing `_start` export, wrong
`_start` signature, or missing `memory` export. -/
def structural_error (env : RunEnv) : Prop :=
  (∃ e, env.parseResult = Except.error e) ∨
  env.resolveError.isSome = true ∨
  env.instantiateError.isSome = true ∨
  ∃ m, env.parseResult = Except.ok m ∧
    (find_exported_function_index m "_start" = none ∨
     (∃ i, find_exported_function_index m "_start" = some i ∧
       m.getFunctionType i ≠ emptyFuncType) ∨
     find_exported_memory m "memory" = none)

/-- A trivial syscall-emulation collaborator used to instantiate
handler theorems on concrete inputs. -/
def trivWASI : WASIBehavior :=
  ⟨52, fun mem _ _ _ _ => (0, mem), fun mem _ _ _ _ => (0, mem),
    fun mem _ _ => (0, mem), fun mem _ _ => (0, mem)⟩

/-- A module exporting a nullary `_start` function and a `memory`. -/
def goodModule : Module :=
  ⟨[⟨"_start", ExternalKind.function, 0⟩, ⟨"memory", ExternalKind.memory, 0⟩],
    fun _ => emptyFuncType⟩

/-- A module with no `_start` export. -/
def moduleNoStart : Module :=
  ⟨[⟨"memory", ExternalKind.memory, 0⟩], fun _ => emptyFuncType⟩

/-- A module whose `_start` takes one i32 parameter. -/
def moduleBadSig : Module :=
  ⟨[⟨"_start", ExternalKind.function, 0⟩, ⟨"memory", ExternalKind.memory, 0⟩],
    fun _ => ⟨[ValType.i32], []⟩⟩

/-- A module exporting `_start` but no memory. -/
def moduleNoMemory : Module :=
  ⟨[⟨"_start", ExternalKind.function, 0⟩], fun _ => emptyFuncType⟩

/-- An environment where all external stages succeed on module `m` and
executing the entry function yields `r`. -/
def envOf (m : Module) (r : ExecutionResult) : RunEnv :=
  ⟨0, Except.ok m, none, none, fun _ _ => r⟩

/-- An environment whose binary fails to parse. -/
def envParseError : RunEnv :=
  ⟨0, Except.error "malformed module", none, none, fun _ _ => ExecutionResult.void⟩

/-- Environment for a module lacking the `_start` export. -/
def envNoStart : RunEnv := envOf moduleNoStart ExecutionResult.void

/-- Environment for a module whose `_start` has a wrong signature. -/
def envBadSig : RunEnv := envOf moduleBadSig ExecutionResult.void

/-- Environment for a module lacking a `memory` export. -/
def envNoMemory : RunEnv := envOf moduleNoMemory ExecutionResult.void

/-- Environment whose entry-function execution traps. -/
def envTrap : RunEnv := envOf goodModule ExecutionResult.trap

/-- Environment whose entry-function execution returns normally. -/
def envOk : RunEnv := envOf goodModule ExecutionResult.void

/-- C1: a guest call to `proc_exit` with any u32 exit code, 0 included,
yields the process-exit outcome carrying exactly that code, and never a
`result` outcome, so control never returns to the caller. -/
theorem proc_exit_terminates (w : WASIBehavior) (mem : Memory) (code : Nat)
    (rest : List Nat) (h : code < 2 ^ 32) :
    (proc_exit w mem (code :: rest)).outcome = HostOutcome.processExit code ∧
      ∀ r : ExecutionResult,
        (proc_exit w mem (code :: rest)).outcome ≠ HostOutcome.result r := by
  constructor
  · simp only [proc_exit, argN, asU32, List.getD_cons_zero]
    rw [Nat.mod_eq_of_lt h]
  · intro r
    simp [proc_exit]

/-- Witness for C1: `proc_exit` with exit code 0. -/
theorem proc_exit_terminates_witness :
    (proc_exit trivWASI [] [0]).outcome = HostOutcome.processExit 0 :=
  (proc_exit_terminates trivWASI [] 0 [] (by decide)).1

/-- C2: the registry entries backed by the `return_enosys` stub are
exactly `fd_prestat_dir_name` and `environ_get`, and for every
collaborator, guest memory and argument list the stub performs no
collaborator operation, leaves guest memory unchanged, and returns the
collaborator's fixed "not supported" status as its single result. -/
theorem enosys_stubs_spec :
    (wasi_functions.filter fun f => f.function == HandlerTag.return_enosys).map
        (fun f => f.name) = ["fd_prestat_dir_name", "environ_get"] ∧
      ∀ (w : WASIBehavior) (mem : Memory) (args : List Nat),
        (return_enosys w mem args).trace = [] ∧
        (return_enosys w mem args).memory = mem ∧
        (return_enosys w mem args).outcome =
          HostOutcome.result (ExecutionResult.value w.enosysStatus) :=
  ⟨by decide, fun _ _ _ => ⟨rfl, rfl, rfl⟩⟩

/-- C7: the registry has exactly seven entries, every entry lives under
the namespace `wasi_snapshot_preview1`, the names and signatures are the
seven listed ones in order, and the (namespace, name) keys contain no
duplicate. -/
theorem wasi_registry_spec :
    wasi_functions.length = 7 ∧
    (wasi_functions.map fun f => f.module_name) =
      List.replicate 7 "wasi_snapshot_preview1" ∧
    (wasi_functions.map fun f => (f.name, f.inputs, f.outputs)) =
      [("proc_exit", [ValType.i32], none),
       ("fd_read", [ValType.i32, ValType.i32, ValType.i32, ValType.i32], some ValType.i32),
       ("fd_write", [ValType.i32, ValType.i32, ValType.i32, ValType.i32], some ValType.i32),
       ("fd_prestat_get", [ValType.i32, ValType.i32], some ValType.i32),
       ("fd_prestat_dir_name", [ValType.i32, ValType.i32, ValType.i32], some ValType.i32),
       ("environ_sizes_get", [ValType.i32, ValType.i32], some ValType.i32),
       ("environ_get", [ValType.i32, ValType.i32], some ValType.i32)] ∧
    (wasi_functions.map fun f => (f.module_name, f.name)).Nodup := by
  refine ⟨rfl, rfl, rfl, ?_⟩
  decide

/-- C8: each supported non-exit handler records exactly one collaborator
operation per call (its trace is that single operation, with the
handler's own arguments), returns the collaborator's numeric status as
its single i32 result value, and never yields a trap or a process-exit
outcome. -/
theorem handlers_single_syscall (w : WASIBehavior) (mem : Memory) (args : List Nat) :
    ((fd_read w mem args).trace =
        [WasiOp.opFdRead (asU32 (argN args 0)) (asU32 (argN args 1))
          (asU32 (argN args 2)) (asU32 (argN args 3))] ∧
      (fd_read w mem args).outcome = HostOutcome.result (ExecutionResult.value
        (w.fd_read mem (asU32 (argN args 0)) (asU32 (argN args 1))
          (asU32 (argN args 2)) (asU32 (argN args 3))).1)) ∧
    ((fd_write w mem args).trace =
        [WasiOp.opFdWrite (asU32 (argN args 0)) (asU32 (argN args 1))
          (asU32 (argN args 2)) (asU32 (argN args 3))] ∧
      (fd_write w mem args).outcome = HostOutcome.result (ExecutionResult.value
        (w.fd_write mem (asU32 (argN args 0)) (asU32 (argN args 1))
          (asU32 (argN args 2)) (asU32 (argN args 3))).1)) ∧
    ((fd_prestat_get w mem args).trace =
        [WasiOp.opFdPrestatGet (asU32 (argN args 0)) (asU32 (argN args 1))] ∧
      (fd_prestat_get w mem args).outcome = HostOutcome.result (ExecutionResult.value
        (w.fd_prestat_get mem (asU32 (argN args 0)) (asU32 (argN args 1))).1)) ∧
    ((environ_sizes_get w mem args).trace =
        [WasiOp.opEnvironSizesGet (asU32 (argN args 0)) (asU32 (argN args 1))] ∧
      (environ_sizes_get w mem args).outcome = HostOutcome.result (ExecutionResult.value
        (w.environ_sizes_get mem (asU32 (argN args 0)) (asU32 (argN args 1))).1)) :=
  ⟨⟨rfl, rfl⟩, ⟨rfl, rfl⟩, ⟨rfl, rfl⟩, ⟨rfl, rfl⟩⟩

/-- C3: on every structural-contract error (malformed binary,
import-resolution failure, instantiation/memory-limit failure, missing
`_start` export, wrong `_start` signature, missing `memory` export),
`run` reports a diagnostic on the error stream and a false result, and
the interpreter never executes guest code. -/
theorem structural_errors_rejected (env : RunEnv) (h : structural_error env) :
    (run env).success = false ∧ (run env).diagnostics ≠ [] ∧
      (run env).executeCalls = 0 := by
  obtain ⟨init, pr, re, ie, ex⟩ := env
  simp only [structural_error] at h
  simp only [run]
  by_cases hi : init ≠ 0
  · simp [hi]
  · rw [if_neg hi]
    rcases pr with e | m
    · simp
    · rcases re with _ | e
      · rcases ie with _ | e
        · simp only [Option.isSome_none, Bool.false_eq_true, false_or] at h
          rcases h with ⟨e, he⟩ | ⟨m', hm', h⟩
          · exact absurd he (by simp)
          · rw [Except.ok.injEq] at hm'
            subst hm'
            rcases h with hnone | ⟨i, hfind, htype⟩ | hmem
            · simp [hnone]
            · simp [hfind, htype]
            · rcases hfq : find_exported_function_index m "_start" with _ | i
              · simp [hfq]
              · by_cases ht : m.getFunctionType i ≠ emptyFuncType
                · simp [hfq, ht]
                · simp [hfq, ht, hmem]
        · simp
      · simp

/-- Witness for C3: a binary that fails to parse is rejected without
execution. -/
theorem structural_errors_rejected_witness :
    (run envParseError).success = false ∧ (run envParseError).diagnostics ≠ [] ∧
      (run envParseError).executeCalls = 0 :=
  structural_errors_rejected envParseError (Or.inl ⟨"malformed module", rfl⟩)

/-- C4: when the parsed module exports no function named `_start`, `run`
fails with a diagnostic and the interpreter's `execute` is never
invoked, so no host-call handler runs and no guest-call side effect is
observed. -/
theorem no_start_rejected (env : RunEnv) (m : Module)
    (hm : env.parseResult = Except.ok m)
    (h : find_exported_function_index m "_start" = none) :
    (run env).success = false ∧ (run env).diagnostics ≠ [] ∧
      (run env).executeCalls = 0 := by
  obtain ⟨init, pr, re, ie, ex⟩ := env
  simp only at hm
  subst hm
  simp only [run]
  by_cases hi : init ≠ 0
  · simp [hi]
  · rw [if_neg hi]
    rcases re with _ | e
    · rcases ie with _ | e
      · simp [h]
      · simp
    · simp

/-- Witness for C4: a module without a `_start` export. -/
theorem no_start_rejected_witness :
    (run envNoStart).success = false ∧ (run envNoStart).diagnostics ≠ [] ∧
      (run envNoStart).executeCalls = 0 :=
  no_start_rejected envNoStart moduleNoStart rfl rfl

/-- C5: when the exported `_start` function's type differs from the
empty signature (any non-empty parameter or result list), `run` fails
with a diagnostic and the entry function is never executed. -/
theorem bad_signature_rejected (env : RunEnv) (m : Module) (i : Nat)
    (hm : env.parseResult = Except.ok m)
    (hf : find_exported_function_index m "_start" = some i)
    (ht : m.getFunctionType i ≠ emptyFuncType) :
    (run env).success = false ∧ (run env).diagnostics ≠ [] ∧
      (run env).executeCalls = 0 := by
  obtain ⟨init, pr, re, ie, ex⟩ := env
  simp only at hm
  subst hm
  simp only [run]
  by_cases hi : init ≠ 0
  · simp [hi]
  · rw [if_neg hi]
    rcases re with _ | e
    · rcases ie with _ | e
      · simp [hf, ht]
      · simp
    · simp

/-- Witness for C5: a module whose `_start` takes one i32 parameter. -/
theorem bad_signature_rejected_witness :
    (run envBadSig).success = false ∧ (run envBadSig).diagnostics ≠ [] ∧
      (run envBadSig).executeCalls = 0 :=
  bad_signature_rejected envBadSig moduleBadSig 0 rfl rfl (by decide)

/-- C6: when the parsed module exports no memory named `memory`, `run`
fails with a diagnostic and the entry function is never executed. -/
theorem no_memory_rejected (env : RunEnv) (m : Module)
    (hm : env.parseResult = Except.ok m)
    (h : find_exported_memory m "memory" = none) :
    (run env).success = false ∧ (run env).diagnostics ≠ [] ∧
      (run env).executeCalls = 0 := by
  obtain ⟨init, pr, re, ie, ex⟩ := env
  simp only at hm
  subst hm
  simp only [run]
  by_cases hi : init ≠ 0
  · simp [hi]
  · rw [if_neg hi]
    rcases re with _ | e
    · rcases ie with _ | e
      · rcases hfq : find_exported_function_index m "_start" with _ | i
        · simp [hfq]
        · by_cases ht : m.getFunctionType i ≠ emptyFuncType
          · simp [hfq, ht]
          · simp [hfq, ht, h]
      · simp
    · simp

/-- Witness for C6: a module exporting `_start` but no memory. -/
theorem no_memory_rejected_witness :
    (run envNoMemory).success = false ∧ (run envNoMemory).diagnostics ≠ [] ∧
      (run envNoMemory).executeCalls = 0 :=
  no_memory_rejected envNoMemory moduleNoMemory rfl rfl

/-- C9: whenever the interpreter reports the entry-function execution as
trapped, `run` reports the trap diagnostic on the error stream with a
false result, and the run terminates after that single execution: the
trap is the run's final outcome, never a per-call status value, and
execution is not resumed. -/
theorem trap_aborts_run (env : RunEnv)
    (h : (run env).finalResult = some ExecutionResult.trap) :
    (run env).success = false ∧ (run env).diagnostics = [trapMsg] ∧
      (run env).executeCalls = 1 := by
  obtain ⟨init, pr, re, ie, ex⟩ := env
  simp only [run] at h ⊢
  by_cases hi : init ≠ 0
  · simp [hi] at h
  · rw [if_neg hi] at h ⊢
    rcases pr with e | m
    · simp at h
    · rcases re with _ | e
      · rcases ie with _ | e
        · rcases hfq : find_exported_function_index m "_start" with _ | i
          · simp [hfq] at h
          · by_cases ht : m.getFunctionType i = emptyFuncType
            · by_cases hmem : find_exported_memory m "memory" = none
              · simp [hfq, ht, hmem] at h
              · rcases hr : ex m i with _ | _ | v
                · simp [hfq, ht, hmem, hr, ExecutionResult.trapped]
                · simp [hfq, ht, hmem, hr, ExecutionResult.trapped] at h
                · simp [hfq, ht, hmem, hr, ExecutionResult.trapped] at h
            · simp [hfq, ht] at h
        · simp at h
      · simp at h

/-- Witness for C9: a run whose entry function traps. -/
theorem trap_aborts_run_witness :
    (run envTrap).success = false ∧ (run envTrap).diagnostics = [trapMsg] ∧
      (run envTrap).executeCalls = 1 :=
  trap_aborts_run envTrap rfl

/-- C10: if the interpreter respects function arity (executing a
function of empty type never yields a value), then whenever `run`
reaches execution of the entry function, the final execution result
carries no value — the source's assertion on `result.has_value` holds —
and a non-trapped execution makes `run` return true. -/
theorem start_result_never_has_value (env : RunEnv)
    (harity : ∀ (m : Module) (i : Nat), m.getFunctionType i = emptyFuncType →
      ∀ v : Nat, env.execute m i ≠ ExecutionResult.value v)
    (r : ExecutionResult) (h : (run env).finalResult = some r) :
    r.has_value = false ∧ (r.trapped = false → (run env).success = true) := by
  obtain ⟨init, pr, re, ie, ex⟩ := env
  simp only at harity
  simp only [run] at h ⊢
  by_cases hi : init ≠ 0
  · simp [hi] at h
  · rw [if_neg hi] at h ⊢
    rcases pr with e | m
    · simp at h
    · rcases re with _ | e
      · rcases ie with _ | e
        · rcases hfq : find_exported_function_index m "_start" with _ | i
          · simp [hfq] at h
          · by_cases ht : m.getFunctionType i = emptyFuncType
            · have hnv := harity m i ht
              by_cases hmem : find_exported_memory m "memory" = none
              · simp [hfq, ht, hmem] at h
              · rcases hr : ex m i with _ | _ | v
                · simp [hfq, ht, hmem, hr, ExecutionResult.trapped] at h
                  subst h
                  exact ⟨rfl, fun h' => by simp [ExecutionResult.trapped] at h'⟩
                · simp [hfq, ht, hmem, hr, ExecutionResult.trapped] at h
                  subst h
                  simp [hfq, ht, hmem, hr, ExecutionResult.trapped,
                    ExecutionResult.has_value]
                · exact absurd hr (hnv v)
            · simp [hfq, ht] at h
        · simp at h
      · simp at h

/-- Witness for C10: a run whose entry function returns normally. -/
theorem start_result_never_has_value_witness :
    (run envOk).success = true :=
  (start_result_never_has_value envOk
      (fun m i _ v hv => by simp [envOk, envOf] at hv)
      ExecutionResult.void rfl).2 rfl

end FizzyWasi
